import Mathlib

/-!
Verification development for the YOKATLAS bridge helper
(`python_helpers/yokatlas_helper.py`).

The helper is a one-shot process: it detects at startup which generation
of the `yokatlas_py` provider library is installed, dispatches one named
operation with a JSON parameter mapping, and emits exactly one JSON
document.  The definitions below are a shallow embedding of that code:

* `PyVal` / `Params` model the JSON-ish Python values and the parameter
  dictionaries the helper manipulates;
* `capabilityState` / `detectGeneration` model the three-tier import
  fallback chain setting `NEW_SMART_API` and `YOKATLAS_AVAILABLE`;
* `health_check`, `get_associate_degree_atlas_details`,
  `get_bachelor_degree_atlas_details`, `search_bachelor_degree_programs`
  and `search_associate_degree_programs` mirror the five operations,
  with the opaque provider library passed in as function arguments;
* `mainRun` models the process boundary: argument handling, the
  `KeyError` path for detail lookups, and the exit code.
-/

set_option autoImplicit false

namespace Yokatlas

/-- Python values as they occur in the helper's parameter dictionaries:
strings, ints, floats, bools and None.  Python treats `bool` as a
subclass of `int`, which matters for the `isinstance(v, (int, float))`
test in the associate-degree parameter pruning. -/
inductive PyVal where
  | vstr (s : String)
  | vint (n : Int)
  | vfloat (q : Rat)
  | vbool (b : Bool)
  | vnone
  deriving DecidableEq, Repr

/-- A Python dict of caller parameters, as a key/value association list
(JSON-parsed dicts have unique keys; lookup takes the first match). -/
abbrev Params := List (String × PyVal)

/-- Lookup of `params[k]`, `Option.none` when the key is absent
(the `KeyError` case for bracket access). -/
def pfind (params : Params) (k : String) : Option PyVal :=
  match params with
  | [] => Option.none
  | (k', v) :: rest => if k' = k then some v else pfind rest k

/-- Python `params.get(k, d)`. -/
def pget (params : Params) (k : String) (d : PyVal) : PyVal :=
  (pfind params k).getD d

/-- Python truthiness of a value: empty string, zero, `False` and `None`
are falsy. -/
def truthy : PyVal → Bool
  | .vstr s => s ≠ ""
  | .vint n => n ≠ 0
  | .vfloat q => q ≠ 0
  | .vbool b => b
  | .vnone => false

/-- Python `isinstance(v, (int, float))`; `bool` is a subclass of `int`. -/
def isNumericPy : PyVal → Bool
  | .vint _ => true
  | .vfloat _ => true
  | .vbool _ => true
  | _ => false

/-- The Python repr of a missing dict key as carried by `str(KeyError(k))`,
i.e. the key wrapped in single quotes. -/
def keyErrorMsg (k : String) : String := "\x27" ++ k ++ "\x27"

/-- Whether `needle` occurs as a contiguous substring of `hay`
(on the underlying character lists). -/
def strContains (hay needle : String) : Bool :=
  (List.range (hay.data.length + 1)).any
    (fun i => needle.data.isPrefixOf (hay.data.drop i))

/-! ## Capability detection

The helper sets two module globals through a chain of `try/except
ImportError` blocks: tier 1 binds the modern unified search API, tier 2
the legacy wizard objects via package-level names, tier 3 the same
wizard objects via direct submodule paths.  `ImportEnv` records which
tiers' imports would succeed in the ambient Python environment. -/

/-- Which of the three import tiers would succeed. -/
structure ImportEnv where
  modernBindOk : Bool
  legacyObjectBindOk : Bool
  legacyModuleBindOk : Bool
  deriving DecidableEq, Repr

/-- The provider-API generation selected by the fallback chain. -/
inductive Generation where
  | modern
  | legacyObject
  | legacyModule
  | unavailable
  deriving DecidableEq, Repr

/-- The generation the import fallback chain settles on: the first
tier whose imports succeed, `unavailable` when none do. -/
def detectGeneration (env : ImportEnv) : Generation :=
  if env.modernBindOk then .modern
  else if env.legacyObjectBindOk then .legacyObject
  else if env.legacyModuleBindOk then .legacyModule
  else .unavailable

/-- The pair `(NEW_SMART_API, YOKATLAS_AVAILABLE)` as set by
the fallback chain of imports. -/
def capabilityState (env : ImportEnv) : Bool × Bool :=
  if env.modernBindOk then (true, true)
  else if env.legacyObjectBindOk then (false, true)
  else if env.legacyModuleBindOk then (false, true)
  else (false, false)

/-- The module global `NEW_SMART_API`. -/
def NEW_SMART_API (env : ImportEnv) : Bool := (capabilityState env).1

/-- The module global `YOKATLAS_AVAILABLE`. -/
def YOKATLAS_AVAILABLE (env : ImportEnv) : Bool := (capabilityState env).2

/-! ## Structured payloads -/

/-- The payload built by `get_module_unavailable_error`. -/
structure ModuleUnavailableError where
  error : String
  function : String
  suggestion : String
  status : String
  available_functions : List String
  deriving DecidableEq, Repr

/-- Mirrors `get_module_unavailable_error(function_name)`; `avail` is the
value the global `YOKATLAS_AVAILABLE` has at call time. -/
def get_module_unavailable_error (avail : Bool) (function_name : String) :
    ModuleUnavailableError :=
  { error := "yokatlas_py module is not available"
    function := function_name
    suggestion := "Please install the yokatlas_py package: pip install git+https://github.com/emirks/yokatlas-py.git"
    status := "module_not_found"
    available_functions := if avail then ["all"] else ["health_check"] }

/-- The payload returned by `health_check`. -/
structure HealthCheckResult where
  status : String
  server : String
  api_version : String
  smart_search : Bool
  yokatlas_available : Bool
  message : String
  deriving DecidableEq, Repr

/-- Mirrors `health_check()`, reading the two module globals. -/
def health_check (newSmartApi avail : Bool) : HealthCheckResult :=
  { status := "healthy"
    server := "YOKATLAS API Server"
    api_version := "v1.0"
    smart_search := newSmartApi
    yokatlas_available := avail
    message :=
      if avail then "All systems operational"
      else "yokatlas_py module not available - install required for full functionality" }

/-! ## Parameter translation for the legacy generations -/

/-- The bachelor legacy parameter dict before pruning, mirroring the
`legacy_params` literal in `search_bachelor_degree_programs`. -/
def bachelorLegacyRaw (params : Params) : Params :=
  [("uni_adi", pget params "universite" (.vstr ""))
   , ("program_adi", pget params "program" (.vstr ""))
   , ("sehir_adi", pget params "sehir" (.vstr ""))
   , ("puan_turu", pget params "puan_turu" (.vstr "say"))
   , ("universite_turu", pget params "universite_turu" (.vstr ""))
   , ("ucret_burs", pget params "ucret" (.vstr ""))
   , ("ogretim_turu", pget params "ogretim_turu" (.vstr ""))
   , ("page", .vint 1)]

/-- The bachelor pruning step `{k: v for k, v in ... if v}`. -/
def pruneBachelor (m : Params) : Params :=
  m.filter (fun kv => truthy kv.2)

/-- The pruned bachelor legacy parameters passed to the wizard object. -/
def bachelorLegacyParams (params : Params) : Params :=
  pruneBachelor (bachelorLegacyRaw params)

/-- The associate legacy parameter dict before pruning, mirroring the
`legacy_params` literal in `search_associate_degree_programs`. -/
def associateLegacyRaw (params : Params) : Params :=
  [("yop_kodu", .vstr "")
   , ("uni_adi", pget params "universite" (.vstr ""))
   , ("program_adi", pget params "program" (.vstr ""))
   , ("sehir_adi", pget params "sehir" (.vstr ""))
   , ("universite_turu", pget params "universite_turu" (.vstr ""))
   , ("ucret_burs", pget params "ucret" (.vstr ""))
   , ("ogretim_turu", pget params "ogretim_turu" (.vstr ""))
   , ("doluluk", pget params "doluluk" (.vstr ""))
   , ("ust_puan", .vfloat 550)
   , ("alt_puan", .vfloat 150)
   , ("page", .vint 1)]

/-- The associate pruning step
`{k: v for k, v in ... if v or isinstance(v, (int, float))}`. -/
def pruneAssociate (m : Params) : Params :=
  m.filter (fun kv => truthy kv.2 || isNumericPy kv.2)

/-- The pruned associate legacy parameters passed to the wizard object. -/
def associateLegacyParams (params : Params) : Params :=
  pruneAssociate (associateLegacyRaw params)

/-! ## Search operations

The provider library is opaque: each generation's search entry point is
passed in as a function returning either rows or a raised fault
(`Except.error`).  A legacy `search()` may also return a non-list value,
which the helper forwards untouched (`ProviderResult.other`). -/

/-- What a legacy wizard `search()` call can hand back: a list of rows
or some non-list value. -/
inductive ProviderResult (α : Type) where
  | rows (rs : List α)
  | other (v : PyVal)
  deriving DecidableEq, Repr

/-- The `programs` field of a search envelope: a (possibly truncated)
list of rows, or the non-list provider value forwarded as-is. -/
inductive SearchPrograms (α : Type) where
  | rows (rs : List α)
  | other (v : PyVal)
  deriving DecidableEq, Repr

/-- The normalized success envelope for the two search operations. -/
structure SearchEnvelope (α : Type) where
  programs : SearchPrograms α
  total_found : Nat
  search_method : String
  fuzzy_matching : Bool
  program_type : Option String
  deriving DecidableEq, Repr

/-- The error payload built in the `except` arm of a search operation. -/
structure SearchErrorPayload where
  error : String
  search_method : String
  parameters_used : Params
  program_type : Option String
  deriving DecidableEq, Repr

/-- The full outcome of a search operation. -/
inductive SearchOutcome (α : Type) where
  | unavailable (e : ModuleUnavailableError)
  | ok (e : SearchEnvelope α)
  | err (e : SearchErrorPayload)
  deriving DecidableEq, Repr

/-- Python slicing `xs[:v]` for the result-length limit value: ints slice
(negative counts from the end), `True`/`False` slice as 1/0, `None`
keeps everything, and strings/floats raise a `TypeError`. -/
def pySliceVal {α : Type} : PyVal → List α → Except String (List α)
  | .vint n, xs =>
      .ok (if n < 0 then xs.take ((xs.length : Int) + n).toNat else xs.take n.toNat)
  | .vbool b, xs => .ok (xs.take (if b then 1 else 0))
  | .vnone, xs => .ok xs
  | .vstr _, _ => .error "slice indices must be integers or None or have an __index__ method"
  | .vfloat _, _ => .error "slice indices must be integers or None or have an __index__ method"

/-- The MODERN-generation per-row validation: coerce the raw record via
`ProgramInfo(**data).model_dump()`, keeping the raw record when the
coercion raises. -/
def validateElseRaw {α : Type} (validate : α → Option α) (r : α) : α :=
  match validate r with
  | some v => v
  | Option.none => r

/-- Mirrors `search_bachelor_degree_programs(params)`.  `modernSearch`
stands for `search_lisans_programs(params, smart_search=True)`,
`validate` for the `ProgramInfo` coercion, `legacySearch` for
`YOKATLASLisansTercihSihirbazi(legacy_params).search()`. -/
def search_bachelor_degree_programs {α : Type} (newSmartApi avail : Bool)
    (modernSearch : Params → Except String (List α))
    (validate : α → Option α)
    (legacySearch : Params → Except String (ProviderResult α))
    (params : Params) : SearchOutcome α :=
  if avail then
    if newSmartApi then
      match modernSearch params with
      | .error e => .err ⟨e, "smart_search", params, Option.none⟩
      | .ok results =>
          let validated := results.map (validateElseRaw validate)
          .ok ⟨.rows validated, validated.length, "smart_search_v0.4.3", true, Option.none⟩
    else
      match legacySearch (bachelorLegacyParams params) with
      | .error e => .err ⟨e, "legacy_api", params, Option.none⟩
      | .ok (.other v) => .ok ⟨.other v, 0, "legacy_api", false, Option.none⟩
      | .ok (.rows rs) =>
          match pySliceVal (pget params "length" (.vint 50)) rs with
          | .error e => .err ⟨e, "legacy_api", params, Option.none⟩
          | .ok limited => .ok ⟨.rows limited, rs.length, "legacy_api", false, Option.none⟩
  else .unavailable (get_module_unavailable_error avail "search_bachelor_degree_programs")

/-- Mirrors `search_associate_degree_programs(params)`.  Under the MODERN
generation the rows from `search_onlisans_programs` are returned
without any per-row validation step. -/
def search_associate_degree_programs {α : Type} (newSmartApi avail : Bool)
    (modernSearch : Params → Except String (List α))
    (legacySearch : Params → Except String (ProviderResult α))
    (params : Params) : SearchOutcome α :=
  if avail then
    if newSmartApi then
      match modernSearch params with
      | .error e => .err ⟨e, "smart_search", params, some "associate_degree"⟩
      | .ok results =>
          .ok ⟨.rows results, results.length, "smart_search_v0.4.3", true, some "associate_degree"⟩
    else
      match legacySearch (associateLegacyParams params) with
      | .error e => .err ⟨e, "legacy_api", params, some "associate_degree"⟩
      | .ok (.other v) => .ok ⟨.other v, 0, "legacy_api", false, some "associate_degree"⟩
      | .ok (.rows rs) =>
          match pySliceVal (pget params "length" (.vint 50)) rs with
          | .error e => .err ⟨e, "legacy_api", params, some "associate_degree"⟩
          | .ok limited =>
              .ok ⟨.rows limited, rs.length, "legacy_api", false, some "associate_degree"⟩
  else .unavailable (get_module_unavailable_error avail "search_associate_degree_programs")

/-! ## Detail-lookup operations -/

/-- The outcome of a detail lookup: the module-unavailable payload, the
provider's detail document, or the structured
`{error, program_id, year}` payload from the `except` arm. -/
inductive DetailOutcome (δ : Type) where
  | unavailable (e : ModuleUnavailableError)
  | ok (d : δ)
  | err (error : String) (program_id : PyVal) (year : PyVal)
  deriving DecidableEq, Repr

/-- Mirrors `get_associate_degree_atlas_details(yop_kodu, year)`; `fetch`
stands for `YOKATLASOnlisansAtlasi(...).fetch_all_details()`. -/
def get_associate_degree_atlas_details {δ : Type} (avail : Bool)
    (fetch : PyVal → PyVal → Except String δ) (yop_kodu year : PyVal) :
    DetailOutcome δ :=
  if avail then
    match fetch yop_kodu year with
    | .ok d => .ok d
    | .error e => .err e yop_kodu year
  else .unavailable (get_module_unavailable_error avail "get_associate_degree_atlas_details")

/-- Mirrors `get_bachelor_degree_atlas_details(yop_kodu, year)`; `fetch`
stands for `YOKATLASLisansAtlasi(...).fetch_all_details()`. -/
def get_bachelor_degree_atlas_details {δ : Type} (avail : Bool)
    (fetch : PyVal → PyVal → Except String δ) (yop_kodu year : PyVal) :
    DetailOutcome δ :=
  if avail then
    match fetch yop_kodu year with
    | .ok d => .ok d
    | .error e => .err e yop_kodu year
  else .unavailable (get_module_unavailable_error avail "get_bachelor_degree_atlas_details")

/-! ## Process boundary (`main`) -/

/-- The opaque provider entry points `main` can reach, one per call path. -/
structure Providers (α δ : Type) where
  fetchOnlisans : PyVal → PyVal → Except String δ
  fetchLisans : PyVal → PyVal → Except String δ
  modernLisans : Params → Except String (List α)
  modernOnlisans : Params → Except String (List α)
  legacyLisans : Params → Except String (ProviderResult α)
  legacyOnlisans : Params → Except String (ProviderResult α)
  validate : α → Option α

/-- The state of the second positional argument: absent, present but not
valid JSON, or a parsed parameter dict. -/
inductive ArgvParams where
  | noParams
  | invalid
  | parsed (p : Params)
  deriving Repr

/-- The single JSON document `main` prints. -/
inductive MainOutput (α δ : Type) where
  | noFunction
  | invalidJson
  | health (h : HealthCheckResult)
  | detail (d : DetailOutcome δ)
  | search (s : SearchOutcome α)
  | unknown (name : String)
  | simpleError (msg : String)
  deriving DecidableEq, Repr

/-- Bracket access `params["yop_kodu"]` and `params["year"]`, evaluated
left to right before the detail operation is entered; a missing key
raises `KeyError`, which the outer `except` of `main` turns into
`{"error": str(e)}` with exit code 1. -/
def detailPath {α δ : Type} (op : PyVal → PyVal → DetailOutcome δ) (params : Params) :
    MainOutput α δ × Nat :=
  match pfind params "yop_kodu" with
  | Option.none => (.simpleError (keyErrorMsg "yop_kodu"), 1)
  | some yop =>
    match pfind params "year" with
    | Option.none => (.simpleError (keyErrorMsg "year"), 1)
    | some year => (.detail (op yop year), 0)

/-- The dispatch on the operation name, after the parameter blob has been
settled. -/
def dispatch {α δ : Type} (env : ImportEnv) (prov : Providers α δ)
    (fname : String) (params : Params) : MainOutput α δ × Nat :=
  if fname = "health_check" then
    (.health (health_check (NEW_SMART_API env) (YOKATLAS_AVAILABLE env)), 0)
  else if fname = "get_associate_degree_atlas_details" then
    detailPath
      (get_associate_degree_atlas_details (YOKATLAS_AVAILABLE env) prov.fetchOnlisans)
      params
  else if fname = "get_bachelor_degree_atlas_details" then
    detailPath
      (get_bachelor_degree_atlas_details (YOKATLAS_AVAILABLE env) prov.fetchLisans)
      params
  else if fname = "search_bachelor_degree_programs" then
    (.search (search_bachelor_degree_programs (NEW_SMART_API env)
      (YOKATLAS_AVAILABLE env) prov.modernLisans prov.validate prov.legacyLisans params), 0)
  else if fname = "search_associate_degree_programs" then
    (.search (search_associate_degree_programs (NEW_SMART_API env)
      (YOKATLAS_AVAILABLE env) prov.modernOnlisans prov.legacyOnlisans params), 0)
  else (.unknown fname, 0)

/-- Mirrors `main()`: no operation name is an immediate error with exit 1;
a malformed JSON blob is an error with exit 1 before dispatch; otherwise
the operation is dispatched (with `{}` when no blob was given) and the
result printed with exit 0, except for the `KeyError` path. -/
def mainRun {α δ : Type} (env : ImportEnv) (prov : Providers α δ)
    (functionName : Option String) (argv2 : ArgvParams) : MainOutput α δ × Nat :=
  match functionName with
  | Option.none => (.noFunction, 1)
  | some fname =>
    match argv2 with
    | .invalid => (.invalidJson, 1)
    | .noParams => dispatch env prov fname []
    | .parsed p => dispatch env prov fname p

/-! ## Concrete instances used by closed statements -/

/-- A legacy provider that returns a fixed row list for any parameters. -/
def constRowsProvider (rs : List Nat) : Params → Except String (ProviderResult Nat) :=
  fun _ => .ok (.rows rs)

/-- A modern provider that returns a fixed row list for any parameters. -/
def constModern (rs : List Nat) : Params → Except String (List Nat) :=
  fun _ => .ok rs

/-- A record coercion that always fails (every raw record is kept). -/
def noValidate : Nat → Option Nat := fun _ => Option.none

/-- A record coercion that always succeeds and changes the record. -/
def succValidate : Nat → Option Nat := fun r => some (r + 1)

/-- A detail fetch that always raises. -/
def faultyFetch : PyVal → PyVal → Except String Nat :=
  fun _ _ => .error "provider fault"

/-- A modern provider whose rows depend on the caller's result-length
limit key, as the forwarded parameter dict allows. -/
def lengthSensitiveModern : Params → Except String (List Nat) :=
  fun p => if pfind p "length" = some (PyVal.vint 1) then .ok [0] else .ok [0, 1]

/-- A bundle of concrete providers for closed statements. -/
def sampleProviders : Providers Nat Nat :=
  { fetchOnlisans := faultyFetch
    fetchLisans := faultyFetch
    modernLisans := constModern []
    modernOnlisans := constModern []
    legacyLisans := constRowsProvider []
    legacyOnlisans := constRowsProvider []
    validate := noValidate }

/-- The numeric defaults the associate legacy operation itself injects
(score-range bounds and the page number). -/
def associateRequiredDefaults : Params :=
  [("ust_puan", .vfloat 550), ("alt_puan", .vfloat 150), ("page", .vint 1)]

/-! ## Helper lemmas -/

theorem pget_of_pfind_none (params : Params) (k : String) (d : PyVal)
    (h : pfind params k = Option.none) : pget params k d = d := by
  simp [pget, h]

theorem pget_of_pfind_some (params : Params) (k : String) (d v : PyVal)
    (h : pfind params k = some v) : pget params k d = v := by
  simp [pget, h]

theorem pySliceVal_int_nonneg {α : Type} (n : Int) (hn : 0 ≤ n) (xs : List α) :
    pySliceVal (.vint n) xs = .ok (xs.take n.toNat) := by
  simp only [pySliceVal]
  rw [if_neg (by omega)]

theorem pySliceVal_length_le {α : Type} (v : PyVal) (xs l : List α)
    (h : pySliceVal v xs = .ok l) : l.length ≤ xs.length := by
  cases v with
  | vint n =>
    simp only [pySliceVal, Except.ok.injEq] at h
    subst h
    split <;> simp [List.length_take]
  | vbool b =>
    simp only [pySliceVal, Except.ok.injEq] at h
    subst h
    simp [List.length_take]
  | vnone =>
    simp only [pySliceVal, Except.ok.injEq] at h
    subst h
    exact le_refl _
  | vstr s => simp [pySliceVal] at h
  | vfloat q => simp [pySliceVal] at h

theorem mainRun_parsed {α δ : Type} (env : ImportEnv) (prov : Providers α δ)
    (fname : String) (params : Params) :
    mainRun env prov (some fname) (.parsed params) = dispatch env prov fname params := rfl

theorem dispatch_bachelor_detail {α δ : Type} (env : ImportEnv)
    (prov : Providers α δ) (params : Params) :
    dispatch env prov "get_bachelor_degree_atlas_details" params
      = detailPath
          (get_bachelor_degree_atlas_details (YOKATLAS_AVAILABLE env) prov.fetchLisans)
          params := rfl

theorem dispatch_associate_detail {α δ : Type} (env : ImportEnv)
    (prov : Providers α δ) (params : Params) :
    dispatch env prov "get_associate_degree_atlas_details" params
      = detailPath
          (get_associate_degree_atlas_details (YOKATLAS_AVAILABLE env) prov.fetchOnlisans)
          params := rfl

theorem detailPath_missing_yop {α δ : Type} (op : PyVal → PyVal → DetailOutcome δ)
    (params : Params) (h : pfind params "yop_kodu" = Option.none) :
    detailPath (α := α) op params = (.simpleError (keyErrorMsg "yop_kodu"), 1) := by
  simp [detailPath, h]

theorem detailPath_missing_year {α δ : Type} (op : PyVal → PyVal → DetailOutcome δ)
    (params : Params) (yop : PyVal) (hy : pfind params "yop_kodu" = some yop)
    (h : pfind params "year" = Option.none) :
    detailPath (α := α) op params = (.simpleError (keyErrorMsg "year"), 1) := by
  simp [detailPath, hy, h]

theorem detailPath_found {α δ : Type} (op : PyVal → PyVal → DetailOutcome δ)
    (params : Params) (yop year : PyVal) (hy : pfind params "yop_kodu" = some yop)
    (h : pfind params "year" = some year) :
    detailPath (α := α) op params = (.detail (op yop year), 0) := by
  simp [detailPath, hy, h]

theorem get_bachelor_detail_err {δ : Type} (fetch : PyVal → PyVal → Except String δ)
    (yop year : PyVal) (msg : String) (h : fetch yop year = .error msg) :
    get_bachelor_degree_atlas_details true fetch yop year = .err msg yop year := by
  simp [get_bachelor_degree_atlas_details, h]

theorem get_associate_detail_err {δ : Type} (fetch : PyVal → PyVal → Except String δ)
    (yop year : PyVal) (msg : String) (h : fetch yop year = .error msg) :
    get_associate_degree_atlas_details true fetch yop year = .err msg yop year := by
  simp [get_associate_degree_atlas_details, h]

theorem search_bachelor_modern_ok {α : Type} (mS : Params → Except String (List α))
    (v : α → Option α) (lS : Params → Except String (ProviderResult α))
    (params : Params) (results : List α) (h : mS params = .ok results) :
    search_bachelor_degree_programs true true mS v lS params
      = .ok ⟨.rows (results.map (validateElseRaw v)),
          (results.map (validateElseRaw v)).length, "smart_search_v0.4.3", true,
          Option.none⟩ := by
  simp [search_bachelor_degree_programs, h]

theorem search_associate_modern_ok {α : Type} (mS : Params → Except String (List α))
    (lS : Params → Except String (ProviderResult α))
    (params : Params) (results : List α) (h : mS params = .ok results) :
    search_associate_degree_programs true true mS lS params
      = .ok ⟨.rows results, results.length, "smart_search_v0.4.3", true,
          some "associate_degree"⟩ := by
  simp [search_associate_degree_programs, h]

theorem search_bachelor_legacy_rows {α : Type} (mS : Params → Except String (List α))
    (v : α → Option α) (lS : Params → Except String (ProviderResult α))
    (params : Params) (rs limited : List α)
    (hl : lS (bachelorLegacyParams params) = .ok (.rows rs))
    (hs : pySliceVal (pget params "length" (.vint 50)) rs = .ok limited) :
    search_bachelor_degree_programs false true mS v lS params
      = .ok ⟨.rows limited, rs.length, "legacy_api", false, Option.none⟩ := by
  simp [search_bachelor_degree_programs, hl, hs]

theorem search_associate_legacy_rows {α : Type} (mS : Params → Except String (List α))
    (lS : Params → Except String (ProviderResult α))
    (params : Params) (rs limited : List α)
    (hl : lS (associateLegacyParams params) = .ok (.rows rs))
    (hs : pySliceVal (pget params "length" (.vint 50)) rs = .ok limited) :
    search_associate_degree_programs false true mS lS params
      = .ok ⟨.rows limited, rs.length, "legacy_api", false, some "associate_degree"⟩ := by
  simp [search_associate_degree_programs, hl, hs]

theorem filter_idem {β : Type} (p : β → Bool) (l : List β) :
    (l.filter p).filter p = l.filter p := by
  simp [List.filter_filter]

/-! ## Claim theorems -/

/-- C1 (amended): `health_check` always succeeds with status `"healthy"`
(also when the provider is absent, where the spec scenario wrongly says
`"error"`); its `yokatlas_available` field equals the recorded
availability flag, `main` prints it and exits 0, and with the provider
absent the message announces the missing module. -/
theorem health_check_truthful {α δ : Type} (env : ImportEnv) (prov : Providers α δ) :
    mainRun env prov (some "health_check") .noParams
      = (.health (health_check (NEW_SMART_API env) (YOKATLAS_AVAILABLE env)), 0)
    ∧ (health_check (NEW_SMART_API env) (YOKATLAS_AVAILABLE env)).status = "healthy"
    ∧ (health_check (NEW_SMART_API env) (YOKATLAS_AVAILABLE env)).yokatlas_available
        = YOKATLAS_AVAILABLE env
    ∧ (health_check false false).message
        = "yokatlas_py module not available - install required for full functionality" :=
  ⟨rfl, rfl, rfl, rfl⟩

/-- C1 counterexample: with the provider absent the payload status is
`"healthy"`, not the `"error"` the claim requires. -/
theorem health_check_status_not_error :
    (health_check false false).status ≠ "error" ∧
    (health_check false false).yokatlas_available = false := by
  constructor
  · decide
  · rfl

/-- C4: the capability detector selects MODERN exactly when tier 1 binds,
LEGACY_OBJECT exactly when tier 1 fails and tier 2 binds, LEGACY_MODULE
exactly when tiers 1 and 2 fail and tier 3 binds, NONE exactly when all
fail; the selection is unique, the availability flag matches it, and
`NEW_SMART_API` is set only for MODERN. -/
theorem capability_detection_order (env : ImportEnv) :
    (detectGeneration env = .modern ↔ env.modernBindOk = true)
    ∧ (detectGeneration env = .legacyObject ↔
        env.modernBindOk = false ∧ env.legacyObjectBindOk = true)
    ∧ (detectGeneration env = .legacyModule ↔
        env.modernBindOk = false ∧ env.legacyObjectBindOk = false
          ∧ env.legacyModuleBindOk = true)
    ∧ (detectGeneration env = .unavailable ↔
        env.modernBindOk = false ∧ env.legacyObjectBindOk = false
          ∧ env.legacyModuleBindOk = false)
    ∧ (YOKATLAS_AVAILABLE env = true ↔ detectGeneration env ≠ .unavailable)
    ∧ (NEW_SMART_API env = true ↔ detectGeneration env = .modern)
    ∧ (∀ g1 g2 : Generation,
        detectGeneration env = g1 → detectGeneration env = g2 → g1 = g2) := by
  obtain ⟨m, lo, lm⟩ := env
  refine ⟨?_, ?_, ?_, ?_, ?_, ?_, ?_⟩
  all_goals
    try (revert m lo lm; decide)
  intro g1 g2 h1 h2
  rw [← h1, ← h2]

/-- C4 witness: with only tier 1 binding, the detector selects MODERN. -/
theorem capability_detection_order_witness :
    detectGeneration ⟨true, true, true⟩ = Generation.modern :=
  (capability_detection_order ⟨true, true, true⟩).1.mpr rfl

/-- C7: with the provider unavailable, each of the four non-health
operations returns the structured module-unavailable payload naming the
attempted operation, carrying the install suggestion and status
`"module_not_found"`; the result does not depend on the provider entry
points, which are therefore never consulted. -/
theorem module_unavailable_payloads {α δ : Type}
    (fetch : PyVal → PyVal → Except String δ) (yop year : PyVal) (ns : Bool)
    (mS : Params → Except String (List α)) (v : α → Option α)
    (lS : Params → Except String (ProviderResult α)) (params : Params) :
    get_associate_degree_atlas_details false fetch yop year
      = .unavailable (get_module_unavailable_error false "get_associate_degree_atlas_details")
    ∧ get_bachelor_degree_atlas_details false fetch yop year
      = .unavailable (get_module_unavailable_error false "get_bachelor_degree_atlas_details")
    ∧ search_bachelor_degree_programs ns false mS v lS params
      = .unavailable (get_module_unavailable_error false "search_bachelor_degree_programs")
    ∧ search_associate_degree_programs ns false mS lS params
      = .unavailable (get_module_unavailable_error false "search_associate_degree_programs")
    ∧ (∀ f : String, (get_module_unavailable_error false f).function = f
        ∧ (get_module_unavailable_error false f).status = "module_not_found"
        ∧ (get_module_unavailable_error false f).suggestion
            = "Please install the yokatlas_py package: pip install git+https://github.com/emirks/yokatlas-py.git"
        ∧ (get_module_unavailable_error false f).available_functions = ["health_check"]) :=
  ⟨rfl, rfl, rfl, rfl, fun _ => ⟨rfl, rfl, rfl, rfl⟩⟩

/-- C6: when the provider raises during a detail lookup, the operation
returns exactly the payload `{error, program_id, year}` echoing the
identifiers, the fault never escapes, and `main` prints it with exit
code 0. -/
theorem detail_provider_fault_contained {α δ : Type} (env : ImportEnv)
    (prov : Providers α δ) (params : Params) (yop year : PyVal) (msg : String)
    (havail : YOKATLAS_AVAILABLE env = true)
    (hyop : pfind params "yop_kodu" = some yop)
    (hyear : pfind params "year" = some year)
    (hfetchL : prov.fetchLisans yop year = .error msg)
    (hfetchO : prov.fetchOnlisans yop year = .error msg) :
    mainRun env prov (some "get_bachelor_degree_atlas_details") (.parsed params)
      = (.detail (.err msg yop year), 0)
    ∧ mainRun env prov (some "get_associate_degree_atlas_details") (.parsed params)
      = (.detail (.err msg yop year), 0)
    ∧ get_bachelor_degree_atlas_details true prov.fetchLisans yop year
      = .err msg yop year
    ∧ get_associate_degree_atlas_details true prov.fetchOnlisans yop year
      = .err msg yop year := by
  refine ⟨?_, ?_, ?_, ?_⟩
  · rw [mainRun_parsed, dispatch_bachelor_detail,
      detailPath_found _ _ _ _ hyop hyear, havail,
      get_bachelor_detail_err _ _ _ _ hfetchL]
  · rw [mainRun_parsed, dispatch_associate_detail,
      detailPath_found _ _ _ _ hyop hyear, havail,
      get_associate_detail_err _ _ _ _ hfetchO]
  · exact get_bachelor_detail_err _ _ _ _ hfetchL
  · exact get_associate_detail_err _ _ _ _ hfetchO

/-- C6 witness: a concrete faulting fetch for yop_kodu 104110221,
year 2023 yields the echoing error payload with exit code 0. -/
theorem detail_provider_fault_contained_witness :
    mainRun ⟨true, false, false⟩ sampleProviders
      (some "get_bachelor_degree_atlas_details")
      (.parsed [("yop_kodu", PyVal.vstr "104110221"), ("year", PyVal.vint 2023)])
      = (.detail (.err "provider fault" (PyVal.vstr "104110221") (PyVal.vint 2023)), 0) :=
  (detail_provider_fault_contained ⟨true, false, false⟩ sampleProviders
    [("yop_kodu", PyVal.vstr "104110221"), ("year", PyVal.vint 2023)]
    (PyVal.vstr "104110221") (PyVal.vint 2023) "provider fault"
    rfl rfl rfl rfl rfl).1

/-- C5 (amended): a detail lookup whose parameters lack the program
identifier or the year fails before the provider is invoked (the result
does not depend on the provider bundle), but what is returned is the
bare `KeyError` payload `{"error": "<key repr>"}` with exit code 1 — it
neither references the offending operation nor echoes the supplied
identifiers. -/
theorem detail_missing_key_keyerror {α δ : Type} (env : ImportEnv)
    (prov : Providers α δ) (params : Params) :
    (pfind params "yop_kodu" = Option.none →
      mainRun env prov (some "get_bachelor_degree_atlas_details") (.parsed params)
        = (.simpleError (keyErrorMsg "yop_kodu"), 1)
      ∧ mainRun env prov (some "get_associate_degree_atlas_details") (.parsed params)
        = (.simpleError (keyErrorMsg "yop_kodu"), 1))
    ∧ (∀ yop, pfind params "yop_kodu" = some yop →
        pfind params "year" = Option.none →
      mainRun env prov (some "get_bachelor_degree_atlas_details") (.parsed params)
        = (.simpleError (keyErrorMsg "year"), 1)
      ∧ mainRun env prov (some "get_associate_degree_atlas_details") (.parsed params)
        = (.simpleError (keyErrorMsg "year"), 1)) := by
  constructor
  · intro h
    constructor
    · rw [mainRun_parsed, dispatch_bachelor_detail, detailPath_missing_yop _ _ h]
    · rw [mainRun_parsed, dispatch_associate_detail, detailPath_missing_yop _ _ h]
  · intro yop hy h
    constructor
    · rw [mainRun_parsed, dispatch_bachelor_detail, detailPath_missing_year _ _ _ hy h]
    · rw [mainRun_parsed, dispatch_associate_detail, detailPath_missing_year _ _ _ hy h]

/-- C5 witness: with the year present but the identifier missing, the
bachelor detail lookup emits the bare KeyError payload with exit 1. -/
theorem detail_missing_key_keyerror_witness :
    mainRun ⟨true, false, false⟩ sampleProviders
      (some "get_bachelor_degree_atlas_details")
      (.parsed [("year", PyVal.vint 2023)])
      = (.simpleError (keyErrorMsg "yop_kodu"), 1)
    ∧ mainRun ⟨true, false, false⟩ sampleProviders
      (some "get_associate_degree_atlas_details")
      (.parsed [("year", PyVal.vint 2023)])
      = (.simpleError (keyErrorMsg "yop_kodu"), 1) :=
  (detail_missing_key_keyerror ⟨true, false, false⟩ sampleProviders
    [("year", PyVal.vint 2023)]).1 rfl

/-- C5 counterexample: the missing-identifier payload is the bare string
`"\x27yop_kodu\x27"` with exit code 1; it contains neither the operation
name nor the supplied year 2023, refuting the claimed structured error. -/
theorem detail_missing_key_payload_lacks_context :
    mainRun ⟨true, false, false⟩ sampleProviders
      (some "get_bachelor_degree_atlas_details")
      (.parsed [("year", PyVal.vint 2023)])
      = (.simpleError (keyErrorMsg "yop_kodu"), 1)
    ∧ strContains (keyErrorMsg "yop_kodu") "get_bachelor_degree_atlas_details" = false
    ∧ strContains (keyErrorMsg "yop_kodu") "2023" = false := by
  refine ⟨rfl, ?_, ?_⟩ <;> decide

/-- C2 (amended): the per-invocation row bound is the caller's `length`
parameter with default 50, and it is applied only under the legacy
generations; under MODERN every provider row is returned.  No
`max_results` key is consulted and no cap of 200 exists anywhere. -/
theorem length_limit_bounds_legacy_rows {α : Type}
    (mS : Params → Except String (List α)) (v : α → Option α)
    (lSb lSa : Params → Except String (ProviderResult α)) (params : Params) :
    (∀ rs, lSb (bachelorLegacyParams params) = .ok (.rows rs) →
      pfind params "length" = Option.none →
      search_bachelor_degree_programs false true mS v lSb params
        = .ok ⟨.rows (rs.take 50), rs.length, "legacy_api", false, Option.none⟩
      ∧ (rs.take 50).length ≤ 50)
    ∧ (∀ rs n, lSb (bachelorLegacyParams params) = .ok (.rows rs) →
      pfind params "length" = some (.vint n) → 0 ≤ n →
      search_bachelor_degree_programs false true mS v lSb params
        = .ok ⟨.rows (rs.take n.toNat), rs.length, "legacy_api", false, Option.none⟩
      ∧ (rs.take n.toNat).length ≤ n.toNat)
    ∧ (∀ rs, lSa (associateLegacyParams params) = .ok (.rows rs) →
      pfind params "length" = Option.none →
      search_associate_degree_programs false true mS lSa params
        = .ok ⟨.rows (rs.take 50), rs.length, "legacy_api", false,
            some "associate_degree"⟩
      ∧ (rs.take 50).length ≤ 50)
    ∧ (∀ results, mS params = .ok results →
      search_bachelor_degree_programs true true mS v lSb params
        = .ok ⟨.rows (results.map (validateElseRaw v)),
            (results.map (validateElseRaw v)).length, "smart_search_v0.4.3", true,
            Option.none⟩) := by
  refine ⟨?_, ?_, ?_, ?_⟩
  · intro rs hl hn
    have hs : pySliceVal (pget params "length" (.vint 50)) rs = .ok (rs.take 50) := by
      rw [pget_of_pfind_none _ _ _ hn]
      simpa using pySliceVal_int_nonneg 50 (by omega) rs
    exact ⟨search_bachelor_legacy_rows mS v lSb params rs _ hl hs,
      by simp [List.length_take]⟩
  · intro rs n hl hn h0
    have hs : pySliceVal (pget params "length" (.vint 50)) rs = .ok (rs.take n.toNat) := by
      rw [pget_of_pfind_some _ _ _ _ hn]
      exact pySliceVal_int_nonneg n h0 rs
    exact ⟨search_bachelor_legacy_rows mS v lSb params rs _ hl hs,
      by simp [List.length_take]⟩
  · intro rs hl hn
    have hs : pySliceVal (pget params "length" (.vint 50)) rs = .ok (rs.take 50) := by
      rw [pget_of_pfind_none _ _ _ hn]
      simpa using pySliceVal_int_nonneg 50 (by omega) rs
    exact ⟨search_associate_legacy_rows mS lSa params rs _ hl hs,
      by simp [List.length_take]⟩
  · intro results h
    exact search_bachelor_modern_ok mS v lSb params results h

/-- C2 witness: three legacy provider rows with no `length` key come back
whole, within the default bound of 50. -/
theorem length_limit_bounds_legacy_rows_witness :
    search_bachelor_degree_programs false true (constModern []) noValidate
      (constRowsProvider [0, 1, 2]) []
      = .ok ⟨.rows (([0, 1, 2] : List Nat).take 50), ([0, 1, 2] : List Nat).length,
          "legacy_api", false, Option.none⟩
    ∧ ((([0, 1, 2] : List Nat).take 50)).length ≤ 50 :=
  (length_limit_bounds_legacy_rows (constModern []) noValidate
    (constRowsProvider [0, 1, 2]) (constRowsProvider []) []).1 [0, 1, 2] rfl rfl

/-- C2 counterexample: with `max_results` set to 1 the legacy bachelor
search still returns all 3 provider rows, so `max_results` does not
bound the result and no 200 cap exists. -/
theorem max_results_not_consulted :
    search_bachelor_degree_programs false true (constModern []) noValidate
      (constRowsProvider [0, 1, 2]) [("max_results", PyVal.vint 1)]
      = .ok ⟨.rows [0, 1, 2], 3, "legacy_api", false, Option.none⟩
    ∧ ¬ (([0, 1, 2] : List Nat).length ≤ 1) := by
  refine ⟨?_, by decide⟩
  rfl

/-- C3: in every successful search envelope with a row list,
`total_found` is at least the number of rows delivered: under MODERN it
equals it exactly, and under the legacy generations it equals the
pre-truncation provider row count, with equality when the slice does
not truncate. -/
theorem total_found_dominates_programs {α : Type}
    (mS : Params → Except String (List α)) (v : α → Option α)
    (lSb lSa : Params → Except String (ProviderResult α)) (params : Params) :
    (∀ results, mS params = .ok results →
      search_bachelor_degree_programs true true mS v lSb params
        = .ok ⟨.rows (results.map (validateElseRaw v)),
            (results.map (validateElseRaw v)).length, "smart_search_v0.4.3", true,
            Option.none⟩)
    ∧ (∀ results, mS params = .ok results →
      search_associate_degree_programs true true mS lSa params
        = .ok ⟨.rows results, results.length, "smart_search_v0.4.3", true,
            some "associate_degree"⟩)
    ∧ (∀ rs limited, lSb (bachelorLegacyParams params) = .ok (.rows rs) →
      pySliceVal (pget params "length" (.vint 50)) rs = .ok limited →
      search_bachelor_degree_programs false true mS v lSb params
        = .ok ⟨.rows limited, rs.length, "legacy_api", false, Option.none⟩
      ∧ limited.length ≤ rs.length
      ∧ (limited = rs → rs.length = limited.length))
    ∧ (∀ rs limited, lSa (associateLegacyParams params) = .ok (.rows rs) →
      pySliceVal (pget params "length" (.vint 50)) rs = .ok limited →
      search_associate_degree_programs false true mS lSa params
        = .ok ⟨.rows limited, rs.length, "legacy_api", false, some "associate_degree"⟩
      ∧ limited.length ≤ rs.length
      ∧ (limited = rs → rs.length = limited.length)) := by
  refine ⟨?_, ?_, ?_, ?_⟩
  · intro results h
    exact search_bachelor_modern_ok mS v lSb params results h
  · intro results h
    exact search_associate_modern_ok mS lSa params results h
  · intro rs limited hl hs
    exact ⟨search_bachelor_legacy_rows mS v lSb params rs limited hl hs,
      pySliceVal_length_le _ _ _ hs, fun he => by rw [he]⟩
  · intro rs limited hl hs
    exact ⟨search_associate_legacy_rows mS lSa params rs limited hl hs,
      pySliceVal_length_le _ _ _ hs, fun he => by rw [he]⟩

/-- C3 witness: a legacy bachelor search over three rows with the default
limit keeps all rows and reports total_found 3. -/
theorem total_found_dominates_programs_witness :
    search_bachelor_degree_programs false true (constModern []) noValidate
      (constRowsProvider [4, 5, 6]) []
      = .ok ⟨.rows [4, 5, 6], ([4, 5, 6] : List Nat).length, "legacy_api", false,
          Option.none⟩
    ∧ ([4, 5, 6] : List Nat).length ≤ ([4, 5, 6] : List Nat).length
    ∧ (([4, 5, 6] : List Nat) = [4, 5, 6] →
        ([4, 5, 6] : List Nat).length = ([4, 5, 6] : List Nat).length) :=
  (total_found_dominates_programs (constModern []) noValidate
    (constRowsProvider [4, 5, 6]) (constRowsProvider []) []).2.2.1 [4, 5, 6] [4, 5, 6]
    rfl rfl

/-- C8 (amended): the bachelor legacy translator output contains no falsy
value at all; the associate legacy translator output contains no falsy
value except values of numeric Python type (int, float, bool) — which
includes the operation's required defaults but also any caller-supplied
falsy number; the pruning step itself is idempotent. -/
theorem legacy_pruning_invariants (params : Params) (m : Params) :
    (∀ kv ∈ bachelorLegacyParams params, truthy kv.2 = true)
    ∧ (∀ kv ∈ associateLegacyParams params,
        truthy kv.2 = true ∨ isNumericPy kv.2 = true)
    ∧ pruneBachelor (pruneBachelor m) = pruneBachelor m
    ∧ pruneAssociate (pruneAssociate m) = pruneAssociate m := by
  refine ⟨?_, ?_, filter_idem _ m, filter_idem _ m⟩
  · intro kv h
    exact (List.mem_filter.mp h).2
  · intro kv h
    have := (List.mem_filter.mp h).2
    rcases Bool.or_eq_true_iff.mp this with h1 | h1
    · exact Or.inl h1
    · exact Or.inr h1

/-- C8 witness: a caller-supplied university name survives pruning as a
truthy value. -/
theorem legacy_pruning_invariants_witness :
    truthy (PyVal.vstr "X") = true :=
  (legacy_pruning_invariants [("universite", PyVal.vstr "X")] []).1
    ("uni_adi", PyVal.vstr "X") (by decide)

/-- C8 counterexample: a caller-supplied falsy numeric value (`sehir: 0`)
survives the associate pruning although it is falsy and is not one of
the operation's required numeric defaults; moreover the full bachelor
translator is not idempotent on its own output. -/
theorem associate_pruning_keeps_falsy_numeric :
    ("sehir_adi", PyVal.vint 0) ∈ associateLegacyParams [("sehir", PyVal.vint 0)]
    ∧ truthy (PyVal.vint 0) = false
    ∧ ("sehir_adi", PyVal.vint 0) ∉ associateRequiredDefaults
    ∧ bachelorLegacyParams
        (bachelorLegacyParams [("puan_turu", PyVal.vstr ""), ("universite", PyVal.vstr "X")])
      ≠ bachelorLegacyParams [("puan_turu", PyVal.vstr ""), ("universite", PyVal.vstr "X")] := by
  refine ⟨by decide, by decide, by decide, by decide⟩

/-- C9 (amended): under MODERN the bachelor search coerces every raw row,
keeping the raw row when the coercion fails, and the associate search
keeps every raw row without any validation step; in both cases the
output has exactly one entry per provider row and no row is lost. -/
theorem modern_rows_preserved {α : Type}
    (mS : Params → Except String (List α)) (v : α → Option α)
    (lS : Params → Except String (ProviderResult α)) (params : Params) :
    (∀ results, mS params = .ok results →
      search_bachelor_degree_programs true true mS v lS params
        = .ok ⟨.rows (results.map (validateElseRaw v)),
            (results.map (validateElseRaw v)).length, "smart_search_v0.4.3", true,
            Option.none⟩
      ∧ (results.map (validateElseRaw v)).length = results.length)
    ∧ (∀ results, mS params = .ok results →
      search_associate_degree_programs true true mS lS params
        = .ok ⟨.rows results, results.length, "smart_search_v0.4.3", true,
            some "associate_degree"⟩)
    ∧ (∀ r, v r = Option.none → validateElseRaw v r = r)
    ∧ (∀ r c, v r = some c → validateElseRaw v r = c) := by
  refine ⟨?_, ?_, ?_, ?_⟩
  · intro results h
    exact ⟨search_bachelor_modern_ok mS v lS params results h, List.length_map _ _⟩
  · intro results h
    exact search_associate_modern_ok mS lS params results h
  · intro r h
    simp [validateElseRaw, h]
  · intro r c h
    simp [validateElseRaw, h]

/-- C9 witness: a bachelor MODERN search over one row with a failing
coercion keeps the raw row. -/
theorem modern_rows_preserved_witness :
    search_bachelor_degree_programs true true (constModern [7]) noValidate
      (constRowsProvider []) []
      = .ok ⟨.rows (([7] : List Nat).map (validateElseRaw noValidate)),
          (([7] : List Nat).map (validateElseRaw noValidate)).length,
          "smart_search_v0.4.3", true, Option.none⟩
    ∧ (([7] : List Nat).map (validateElseRaw noValidate)).length
        = ([7] : List Nat).length :=
  (modern_rows_preserved (constModern [7]) noValidate (constRowsProvider []) []).1
    [7] rfl

/-- C9 counterexample: with a coercion that succeeds and rewrites the
record, the associate MODERN search still returns the raw row, so no
per-record coercion is attempted there. -/
theorem associate_modern_skips_validation :
    search_associate_degree_programs true true (constModern [0])
      (constRowsProvider []) []
      = .ok ⟨.rows [0], 1, "smart_search_v0.4.3", true, some "associate_degree"⟩
    ∧ List.map (validateElseRaw succValidate) [0] = [1]
    ∧ ([0] : List Nat) ≠ [1] := by
  refine ⟨rfl, by decide, by decide⟩

/-- C10 (amended): under MODERN the helper applies no truncation of its
own — the envelope lists every provider row and `total_found` equals
its length — but the caller's parameter map, `length` key included, is
forwarded verbatim to the provider, so two maps are interchangeable
only when the provider answers them with the same rows. -/
theorem modern_search_no_truncation {α : Type}
    (mS : Params → Except String (List α)) (v : α → Option α)
    (lS : Params → Except String (ProviderResult α)) (p1 p2 : Params) :
    (∀ results, mS p1 = .ok results → mS p2 = .ok results →
      search_bachelor_degree_programs true true mS v lS p1
        = search_bachelor_degree_programs true true mS v lS p2)
    ∧ (∀ results, mS p1 = .ok results →
      search_bachelor_degree_programs true true mS v lS p1
        = .ok ⟨.rows (results.map (validateElseRaw v)),
            (results.map (validateElseRaw v)).length, "smart_search_v0.4.3", true,
            Option.none⟩)
    ∧ (∀ results, mS p1 = .ok results → mS p2 = .ok results →
      search_associate_degree_programs true true mS lS p1
        = search_associate_degree_programs true true mS lS p2)
    ∧ (∀ results, mS p1 = .ok results →
      search_associate_degree_programs true true mS lS p1
        = .ok ⟨.rows results, results.length, "smart_search_v0.4.3", true,
            some "associate_degree"⟩) := by
  refine ⟨?_, ?_, ?_, ?_⟩
  · intro results h1 h2
    rw [search_bachelor_modern_ok mS v lS p1 results h1,
      search_bachelor_modern_ok mS v lS p2 results h2]
  · intro results h1
    exact search_bachelor_modern_ok mS v lS p1 results h1
  · intro results h1 h2
    rw [search_associate_modern_ok mS lS p1 results h1,
      search_associate_modern_ok mS lS p2 results h2]
  · intro results h1
    exact search_associate_modern_ok mS lS p1 results h1

/-- C10 witness: two parameter maps answered identically by the provider
produce identical MODERN envelopes, untruncated. -/
theorem modern_search_no_truncation_witness :
    search_bachelor_degree_programs true true (constModern [0, 1]) noValidate
      (constRowsProvider []) []
      = search_bachelor_degree_programs true true (constModern [0, 1]) noValidate
        (constRowsProvider []) [("length", PyVal.vint 1)] :=
  (modern_search_no_truncation (constModern [0, 1]) noValidate
    (constRowsProvider []) [] [("length", PyVal.vint 1)]).1 [0, 1] rfl rfl

/-- C10 counterexample: because the parameter map (length key included)
is forwarded to the provider, a provider that reads `length` makes two
maps differing only in that key produce different envelopes. -/
theorem modern_search_sees_forwarded_length :
    search_bachelor_degree_programs true true lengthSensitiveModern noValidate
      (constRowsProvider []) []
      ≠ search_bachelor_degree_programs true true lengthSensitiveModern noValidate
        (constRowsProvider []) [("length", PyVal.vint 1)] := by
  decide

end Yokatlas
